import Mathlib

set_option linter.unusedVariables false

/-
Shallow embedding of the session-store core of the Random-Video-Picker
repository (file `video_scanner.py`, class `VideoScanner`), together with
theorems settling the specification claims about it.

Modelling conventions:
  * Filesystem paths are modelled as raw strings; the pathlib normalisation of
    equal-looking path spellings is not modelled (no claim depends on it).
  * Python `set` objects are modelled as duplicate-free lists built with a
    conditional-cons insert; only membership and size are observed.
  * `random.choice(seq)` picks `seq[i]` for some index `i < len(seq)`; it is
    modelled by an explicit index argument `k`, the element taken at
    `k % seq.length`, so theorems quantify over every possible draw.
  * `Path.resolve()` is modelled by an abstract total function
    `resolve : String → List String` returning the resolved absolute path as a
    component list; `Path.relative_to(base)` succeeds exactly when the resolved
    components of the resolved base are a prefix of those of the resolved path.
  * The filesystem seen by `scan_folder` is an explicit `FileSystem` record;
    `rglobAll` abstracts the recursive wildcard walk `folder.rglob`, which yields nothing (rather than
    raising) when the target is not a directory or is an unreadable directory,
    because the pathlib selector checks `is_dir` first and swallows
    `PermissionError` during traversal.
  * Fallible Python code is embedded in `PyResult` / `Except` / `LoadOutcome`;
    an uncaught Python exception is the `raised` constructor carrying the
    exception class name.
-/

namespace RandomVideoPicker

/-- The tuple `self.video_extensions` from `VideoScanner.__init__`. -/
def video_extensions : List String := [".mp4", ".mkv", ".avi", ".mov", ".webm"]

/-- The mutable state of a `VideoScanner` instance: `video_files` (VideoSet),
`played_videos` (PlayedSet, a Python set modelled as a duplicate-free list),
`recent_videos` (RecencyList), `max_recent`, and `current_folder`. -/
structure ScannerState where
  video_files : List String
  played_videos : List String
  recent_videos : List String
  max_recent : Nat
  current_folder : Option String
deriving DecidableEq

/-- The state built by `VideoScanner.__init__`: empty collections and
`max_recent = 10`. -/
def initState : ScannerState :=
  { video_files := [], played_videos := [], recent_videos := [],
    max_recent := 10, current_folder := none }

/-- Python `set.add`: insert `v` unless already a member. -/
def pySetAdd (l : List String) (v : String) : List String :=
  if v ∈ l then l else v :: l

/-- Build a Python set from a list of elements added left to right. -/
def pySetOfList (l : List String) : List String := l.foldl pySetAdd []

/-- The list comprehension in `get_random_video`:
`[v for v in self.video_files if v not in self.played_videos]`. -/
def unplayedOf (s : ScannerState) : List String :=
  s.video_files.filter (fun v => !decide (v ∈ s.played_videos))

/-- Model of `random.choice(l)` under draw `k`: the element at index
`k % l.length` (never called on an empty list in the source). -/
def pyChoice (l : List String) (k : Nat) : Option String := l[k % l.length]?

/-- Model of `VideoScanner.reset_session`: clear `played_videos` and `recent_videos`. -/
def reset_session (s : ScannerState) : ScannerState :=
  { s with played_videos := [], recent_videos := [] }

/-- Model of `VideoScanner.get_random_video`: return `None` if `video_files` is empty;
otherwise compute the unplayed pool; if it is empty, reset the session and
choose from a copy of `video_files`; otherwise choose from the pool. The
`include_skipped` parameter appears in the source signature but is never read
in the body. Returns the chosen video together with the post-call state. -/
def get_random_video (s : ScannerState) (k : Nat)
    (include_skipped : Bool := true) : Option String × ScannerState :=
  if s.video_files = [] then (none, s)
  else if unplayedOf s = [] then
    (pyChoice s.video_files k, reset_session s)
  else
    (pyChoice (unplayedOf s) k, s)

/-- Model of `VideoScanner.mark_played`: add to `played_videos`; remove the video from
`recent_videos` if present (Python `list.remove`, first occurrence), insert it
at the front, and truncate to `max_recent` entries when the list grew past the
bound. -/
def mark_played (s : ScannerState) (video : String) : ScannerState :=
  let played := pySetAdd s.played_videos video
  let r1 := if video ∈ s.recent_videos then s.recent_videos.erase video
            else s.recent_videos
  let r2 := video :: r1
  let r3 := if r2.length > s.max_recent then r2.take s.max_recent else r2
  { s with played_videos := played, recent_videos := r3 }

/-- Model of `VideoScanner.skip_video`: add to `played_videos` only; `recent_videos` is
not touched. -/
def skip_video (s : ScannerState) (video : String) : ScannerState :=
  { s with played_videos := pySetAdd s.played_videos video }

/-- Model of `VideoScanner.get_progress`: the pair of the size of PlayedSet and the size of VideoSet. -/
def get_progress (s : ScannerState) : Nat × Nat :=
  (s.played_videos.length, s.video_files.length)

/-- Python truthiness of an `Optional[int]`: `None` and `0` are falsy. -/
def pyTruthyNat : Option Nat → Bool
  | none => false
  | some n => n != 0

/-- Model of `VideoScanner.get_recent_videos`: `if limit: return recent[:limit]` else a
copy of the whole list — so `limit = 0` falls through to the full copy. -/
def get_recent_videos (s : ScannerState) (limit : Option Nat := none) :
    List String :=
  if pyTruthyNat limit then s.recent_videos.take (limit.getD 0)
  else s.recent_videos

/-- Rightmost index of a dot character in a character list, if any. -/
def rfindDot : List Char → Option Nat
  | [] => none
  | c :: rest =>
    match rfindDot rest with
    | some i => some (i + 1)
    | none => if c = Char.ofNat 46 then some 0 else none

/-- The final path component (Python `Path.name`), splitting on slashes. -/
def pathName (p : String) : String := ((p.splitOn "/").getLastD "")

/-- Python `Path.suffix`: the extension of the final component — the slice of
the name from its rightmost dot, empty unless that dot sits strictly inside
the name (`0 < i < len(name) - 1`). -/
def pySuffix (p : String) : String :=
  let name := pathName p
  match rfindDot name.data with
  | none => ""
  | some i =>
    if 0 < i ∧ i + 1 < name.length then String.mk (name.data.drop i) else ""

/-- The membership test `file_path.suffix.lower() in self.video_extensions`. -/
def hasVideoExt (p : String) : Bool :=
  video_extensions.contains (pySuffix p).toLower

/-- Abstract view of the filesystem consulted by `scan_folder`. `rglobAll f`
is the stream produced by the recursive wildcard walk of `f`: pathlib returns nothing (and raises
nothing) when `f` is not a directory, and swallows `PermissionError` while
walking an unreadable directory, so a non-directory or unreadable `f` shows up
here as `rglobAll f = []`, never as an exception. -/
structure FileSystem where
  exists_ : String → Bool
  is_dir : String → Bool
  readable : String → Bool
  rglobAll : String → List String
  is_file : String → Bool

/-- Model of `VideoScanner.scan_folder`: raise `ValueError("Invalid folder path")` when
the folder argument is `None` or does not exist (the only check the source
performs); otherwise set `current_folder`, clear `video_files`, clear the
session data unless `persistent`, and append every regular file from the
recursive walk whose extension matches. Returns the number of videos found
together with the post-call state. -/
def scan_folder (fs : FileSystem) (s : ScannerState) (folder : Option String)
    (persistent : Bool := false) : Except String (Nat × ScannerState) :=
  match folder with
  | none => .error "Invalid folder path"
  | some f =>
    if !fs.exists_ f then .error "Invalid folder path"
    else
      let s1 := { s with current_folder := some f, video_files := [] }
      let s2 := if !persistent then
                  { s1 with played_videos := [], recent_videos := [] }
                else s1
      let found := (fs.rglobAll f).filter (fun p => fs.is_file p && hasVideoExt p)
      .ok (found.length, { s2 with video_files := found })

/-- JSON values as produced by `json.load`. -/
inductive Json where
  | null
  | jbool (b : Bool)
  | jnum (n : Int)
  | jstr (s : String)
  | jarr (elems : List Json)
  | jobj (fields : List (String × Json))

/-- Outcome of a fragment of Python code: a value, or an uncaught exception
identified by its class name. -/
inductive PyResult (α : Type) where
  | ok (val : α)
  | raised (exc : String)
deriving DecidableEq

/-- Lookup in a JSON object; `json.load` keeps the last occurrence of a
duplicated key, hence the reversal. -/
def jsonGet (fields : List (String × Json)) (key : String) : Option Json :=
  (fields.reverse.find? (fun kv => kv.1 == key)).map (fun kv => kv.2)

/-- Python `state.get(key, dflt)`: raises `AttributeError` unless `state` is a
dict (the source only catches `JSONDecodeError, KeyError, IOError, OSError`). -/
def pyDictGet (j : Json) (key : String) (dflt : Json) : PyResult Json :=
  match j with
  | .jobj fields => .ok ((jsonGet fields key).getD dflt)
  | _ => .raised "AttributeError"

/-- Model of the traversal guard of `_validate_path`: the literal Python substring test of `..` in the path string. -/
def containsDotDot (s : String) : Bool :=
  s.data.tails.any (fun t => "..".data.isPrefixOf t)

/-- Model of `VideoScanner._validate_path` over an abstract `resolve`: reject a string
containing `..`; when a base folder is given, additionally require the
resolved base to be a component prefix of the resolved path
(`resolved_path.relative_to(resolved_base)` succeeding); on success the
original (unresolved) path is returned. -/
def validate_path (resolve : String → List String) (path_str : String)
    (base_folder : Option String) : Option String :=
  if containsDotDot path_str then none
  else
    match base_folder with
    | none => some path_str
    | some base =>
      if (resolve base).isPrefixOf (resolve path_str) then some path_str
      else none

/-- Model of `_validate_path` applied to a raw JSON value: `Path(x)` raises `TypeError`
(uncaught by `load_state`) unless `x` is a string. -/
def validate_json_path (resolve : String → List String) (v : Json)
    (base_folder : Option String) : PyResult (Option String) :=
  match v with
  | .jstr s => .ok (validate_path resolve s base_folder)
  | _ => .raised "TypeError"

/-- Python `for x in v`: arrays yield elements, strings yield one-character
strings, dicts yield their keys, anything else raises `TypeError`. -/
def pyIterate (j : Json) : PyResult (List Json) :=
  match j with
  | .jarr xs => .ok xs
  | .jstr s => .ok (s.data.map (fun c => Json.jstr (String.mk [c])))
  | .jobj fields => .ok (fields.map (fun kv => Json.jstr kv.1))
  | _ => .raised "TypeError"

/-- One of the three validation loops of `load_state`: validate each entry
against the base folder, keep the valid ones in order, drop the invalid ones,
and propagate the first uncaught exception. -/
def validateEntries (resolve : String → List String) (base : String) :
    List Json → PyResult (List String)
  | [] => .ok []
  | v :: rest =>
    match validate_json_path resolve v (some base) with
    | .raised e => .raised e
    | .ok none => validateEntries resolve base rest
    | .ok (some p) =>
      match validateEntries resolve base rest with
      | .raised e => .raised e
      | .ok ps => .ok (p :: ps)

/-- Result of a `load_state` call: a boolean return with the post-call state,
or an uncaught exception (the partially mutated state at the moment of the
raise is not observed by any claim and is not recorded). -/
inductive LoadOutcome where
  | raised (exc : String)
  | returned (success : Bool) (s : ScannerState)
deriving DecidableEq

/-- The three relevant conditions of the snapshot file: absent, present but
not valid JSON, or parsed to a JSON value. -/
inductive FileContent where
  | missing
  | unparsable
  | parsed (j : Json)

/-- Model of `VideoScanner.load_state`: `False` when the file is missing or fails to
parse (`JSONDecodeError` is caught); validate `current_folder` with no
containment base — note the Python Path built from the empty string is the truthy path `.`, so the
`if not current_folder` guard fires exactly when `_validate_path` returned
`None`; then rebuild `played_videos` (a set), `recent_videos` and
`video_files` from the entries that validate against the folder, dropping the
rest, and return `True`. `AttributeError`/`TypeError` from non-dict or
non-string snapshot data are not in the `except` clause and escape. -/
def load_state (resolve : String → List String) (s : ScannerState)
    (file : FileContent) : LoadOutcome :=
  match file with
  | .missing => .returned false s
  | .unparsable => .returned false s
  | .parsed j =>
    match pyDictGet j "current_folder" (.jstr "") with
    | .raised e => .raised e
    | .ok cfv =>
      match validate_json_path resolve cfv none with
      | .raised e => .raised e
      | .ok none => .returned false s
      | .ok (some cf) =>
        match pyDictGet j "played_videos" (.jarr []) with
        | .raised e => .raised e
        | .ok pv =>
          match pyIterate pv with
          | .raised e => .raised e
          | .ok pitems =>
            match validateEntries resolve cf pitems with
            | .raised e => .raised e
            | .ok pvalid =>
              match pyDictGet j "recent_videos" (.jarr []) with
              | .raised e => .raised e
              | .ok rv =>
                match pyIterate rv with
                | .raised e => .raised e
                | .ok ritems =>
                  match validateEntries resolve cf ritems with
                  | .raised e => .raised e
                  | .ok rvalid =>
                    match pyDictGet j "video_files" (.jarr []) with
                    | .raised e => .raised e
                    | .ok vv =>
                      match pyIterate vv with
                      | .raised e => .raised e
                      | .ok vitems =>
                        match validateEntries resolve cf vitems with
                        | .raised e => .raised e
                        | .ok vvalid =>
                          .returned true
                            { s with current_folder := some cf,
                                     played_videos := pySetOfList pvalid,
                                     recent_videos := rvalid,
                                     video_files := vvalid }

/-! ### Helper lemmas about the embedded operations -/

theorem pyChoice_isSome {l : List String} (h : l ≠ []) (k : Nat) :
    ∃ v, pyChoice l k = some v := by
  have hlen : 0 < l.length := List.length_pos.mpr h
  have hk : k % l.length < l.length := Nat.mod_lt _ hlen
  exact ⟨l[k % l.length], by simp [pyChoice, List.getElem?_eq_getElem hk]⟩

theorem pyChoice_mem {l : List String} {k : Nat} {v : String}
    (h : pyChoice l k = some v) : v ∈ l := by
  unfold pyChoice at h
  exact List.getElem?_mem h

theorem mem_unplayedOf {s : ScannerState} {v : String} :
    v ∈ unplayedOf s ↔ v ∈ s.video_files ∧ v ∉ s.played_videos := by
  simp [unplayedOf]

theorem unplayedOf_ne_nil_video_files {s : ScannerState}
    (h : unplayedOf s ≠ []) : s.video_files ≠ [] := by
  intro hvf
  exact h (by simp [unplayedOf, hvf])

theorem grv_empty (s : ScannerState) (k : Nat) (b : Bool)
    (h : s.video_files = []) : get_random_video s k b = (none, s) := by
  simp [get_random_video, h]

theorem grv_exhaust (s : ScannerState) (k : Nat) (b : Bool)
    (h1 : s.video_files ≠ []) (h2 : unplayedOf s = []) :
    get_random_video s k b = (pyChoice s.video_files k, reset_session s) := by
  simp [get_random_video, h1, h2]

theorem grv_active (s : ScannerState) (k : Nat) (b : Bool)
    (h : unplayedOf s ≠ []) :
    get_random_video s k b = (pyChoice (unplayedOf s) k, s) := by
  simp [get_random_video, unplayedOf_ne_nil_video_files h, h]

theorem unplayedOf_reset (s : ScannerState) :
    unplayedOf (reset_session s) = s.video_files := by
  simp [unplayedOf, reset_session]

theorem mem_pySetAdd {l : List String} {v x : String} :
    x ∈ pySetAdd l v ↔ x = v ∨ x ∈ l := by
  unfold pySetAdd
  by_cases h : v ∈ l
  · simp only [if_pos h]
    constructor
    · exact fun hx => Or.inr hx
    · rintro (rfl | hx)
      · exact h
      · exact hx
  · simp only [if_neg h, List.mem_cons]

theorem mem_foldl_pySetAdd {x : String} :
    ∀ (l acc : List String), x ∈ l.foldl pySetAdd acc ↔ x ∈ acc ∨ x ∈ l := by
  intro l
  induction l with
  | nil => simp
  | cons v rest ih =>
    intro acc
    rw [List.foldl_cons, ih, mem_pySetAdd]
    simp [List.mem_cons]
    tauto

theorem mem_pySetOfList {l : List String} {x : String} :
    x ∈ pySetOfList l ↔ x ∈ l := by
  unfold pySetOfList
  rw [mem_foldl_pySetAdd]
  simp

/-! ### Claim C9: the include_skipped parameter has no effect -/

/-- C9: for every session state, every draw of randomness and every pair of
values for `include_skipped`, `get_random_video` returns the same result and
produces the same state — the parameter is never read in the body. -/
theorem include_skipped_unused (s : ScannerState) (k : Nat) (b1 b2 : Bool) :
    get_random_video s k b1 = get_random_video s k b2 := rfl

/-! ### Claim C10: limit 0 returns the whole recency list -/

/-- C10: `get_recent_videos 0` falls into the falsy branch of `if limit:` and
returns the full RecencyList exactly like `get_recent_videos None`, while any
limit `k ≥ 1` returns the `k` most-recent entries. -/
theorem recent_limit_zero (s : ScannerState) (k : Nat) (hk : 1 ≤ k) :
    get_recent_videos s (some 0) = get_recent_videos s none
    ∧ get_recent_videos s none = s.recent_videos
    ∧ get_recent_videos s (some k) = s.recent_videos.take k := by
  refine ⟨rfl, rfl, ?_⟩
  have hne : (k != 0) = true := by
    simp only [bne_iff_ne, ne_eq]
    omega
  simp [get_recent_videos, pyTruthyNat, hne]

/-- Witness for C10 at a concrete state and limit. -/
theorem recent_limit_zero_witness :
    get_recent_videos initState (some 0) = get_recent_videos initState none
    ∧ get_recent_videos initState none = initState.recent_videos
    ∧ get_recent_videos initState (some 2) = initState.recent_videos.take 2 :=
  recent_limit_zero initState 2 (by decide)

/-! ### Claim C4: pick as pure selection -/

/-- A session state in which every video has been consumed: the exhaustion
reset fires inside the next pick. -/
def stateEx : ScannerState :=
  { video_files := ["a"], played_videos := ["a"], recent_videos := ["a"],
    max_recent := 10, current_folder := none }

/-- C4 counterexample: in the exhausted state `stateEx` a single
`get_random_video` call clears PlayedSet and RecencyList, so pick is not pure
selection on every session state. -/
theorem pick_mutates_on_exhaustion :
    ¬ ((get_random_video stateEx 0 true).2.played_videos = stateEx.played_videos
       ∧ (get_random_video stateEx 0 true).2.recent_videos
           = stateEx.recent_videos) := by decide

/-- C4 amended: `get_random_video` never modifies VideoSet or the current
folder; it leaves the whole state unchanged whenever VideoSet is empty or the
unplayed pool is non-empty (the only exception being the exhaustion reset);
and a second pick directly after a first one never changes state again. -/
theorem pick_pure_amended (s : ScannerState) (k q : Nat) (b c : Bool) :
    (get_random_video s k b).2.video_files = s.video_files
    ∧ (get_random_video s k b).2.current_folder = s.current_folder
    ∧ ((s.video_files = [] ∨ unplayedOf s ≠ []) →
        (get_random_video s k b).2 = s)
    ∧ (get_random_video ((get_random_video s k b).2) q c).2
        = (get_random_video s k b).2 := by
  by_cases hvf : s.video_files = []
  · rw [grv_empty s k b hvf]
    exact ⟨rfl, rfl, fun _ => rfl, by rw [grv_empty s q c hvf]⟩
  · by_cases hup : unplayedOf s = []
    · rw [grv_exhaust s k b hvf hup]
      refine ⟨rfl, rfl, ?_, ?_⟩
      · rintro (h | h)
        · exact absurd h hvf
        · exact absurd hup h
      · have hres : unplayedOf (reset_session s) ≠ [] := by
          rw [unplayedOf_reset]; exact hvf
        rw [grv_active (reset_session s) q c hres]
    · rw [grv_active s k b hup]
      exact ⟨rfl, rfl, fun _ => rfl, by rw [grv_active s q c hup]⟩

/-- Witness for the amended C4: on the fresh state a pick changes nothing. -/
theorem pick_pure_amended_witness :
    (get_random_video initState 0 true).2 = initState :=
  (pick_pure_amended initState 0 0 true true).2.2.1 (Or.inl rfl)

/-! ### Claim C2: exhaustion auto-reset inside pick -/

/-- C2: in an exhausted session with at least one video, the next pick resets
the session transparently (PlayedSet and RecencyList are cleared), returns a
video of VideoSet, and after the caller marks (or skips) the returned video
PlayedSet is exactly the singleton of that video. -/
theorem exhaustion_auto_reset (s : ScannerState) (k : Nat) (b : Bool)
    (hne : s.video_files ≠ []) (hx : unplayedOf s = []) :
    ((get_random_video s k b).1.isSome = true)
    ∧ ((get_random_video s k b).1.getD "" ∈ s.video_files)
    ∧ ((get_random_video s k b).2.played_videos = [])
    ∧ ((get_random_video s k b).2.recent_videos = [])
    ∧ ((mark_played (get_random_video s k b).2
          ((get_random_video s k b).1.getD "")).played_videos
        = [(get_random_video s k b).1.getD ""])
    ∧ ((skip_video (get_random_video s k b).2
          ((get_random_video s k b).1.getD "")).played_videos
        = [(get_random_video s k b).1.getD ""]) := by
  rw [grv_exhaust s k b hne hx]
  obtain ⟨v, hv⟩ := pyChoice_isSome hne k
  rw [hv]
  refine ⟨rfl, ?_, rfl, rfl, ?_, ?_⟩
  · simpa using pyChoice_mem hv
  · simp [mark_played, reset_session, pySetAdd]
  · simp [skip_video, reset_session, pySetAdd]

/-- Witness for C2 on the concrete exhausted one-video state. -/
theorem exhaustion_auto_reset_witness :
    ((get_random_video stateEx 0 true).1.isSome = true)
    ∧ ((get_random_video stateEx 0 true).1.getD "" ∈ stateEx.video_files)
    ∧ ((get_random_video stateEx 0 true).2.played_videos = [])
    ∧ ((get_random_video stateEx 0 true).2.recent_videos = [])
    ∧ ((mark_played (get_random_video stateEx 0 true).2
          ((get_random_video stateEx 0 true).1.getD "")).played_videos
        = [(get_random_video stateEx 0 true).1.getD ""])
    ∧ ((skip_video (get_random_video stateEx 0 true).2
          ((get_random_video stateEx 0 true).1.getD "")).played_videos
        = [(get_random_video stateEx 0 true).1.getD ""]) :=
  exhaustion_auto_reset stateEx 0 true (by decide) (by decide)

/-! ### Claim C3: no repeats until exhaustion -/

/-- One round of the caller protocol: pick a video with draw `a.1`; if a video
was returned, mark it played (`a.2 = true`) or skip it (`a.2 = false`). -/
def runStep (s : ScannerState) (a : Nat × Bool) : Option String × ScannerState :=
  match get_random_video s a.1 true with
  | (none, s1) => (none, s1)
  | (some v, s1) => (some v, if a.2 then mark_played s1 v else skip_video s1 v)

/-- Run a list of rounds, collecting the returned videos in order. -/
def runTrace (s : ScannerState) : List (Nat × Bool) → List String × ScannerState
  | [] => ([], s)
  | a :: rest =>
    match runStep s a with
    | (none, s1) => runTrace s1 rest
    | (some v, s1) => ((runTrace s1 rest).1.cons v, (runTrace s1 rest).2)

/-- The side condition of the claim: at no round of the trace is the
exhaustion reset taken, i.e. before each pick either VideoSet is empty (pick
returns none) or the unplayed pool is non-empty. -/
def noExhaust (s : ScannerState) : List (Nat × Bool) → Bool
  | [] => true
  | a :: rest =>
    (decide (s.video_files = []) || !decide (unplayedOf s = []))
    && noExhaust (runStep s a).2 rest

theorem runStep_empty (s : ScannerState) (a : Nat × Bool)
    (h : s.video_files = []) : runStep s a = (none, s) := by
  simp [runStep, grv_empty s a.1 true h]

theorem runStep_active (s : ScannerState) (a : Nat × Bool)
    (h : unplayedOf s ≠ []) :
    ∃ v, v ∈ s.video_files ∧ v ∉ s.played_videos
      ∧ runStep s a = (some v, if a.2 then mark_played s v else skip_video s v) := by
  obtain ⟨v, hv⟩ := pyChoice_isSome h a.1
  have hmem := mem_unplayedOf.mp (pyChoice_mem hv)
  exact ⟨v, hmem.1, hmem.2, by simp [runStep, grv_active s a.1 true h, hv]⟩

theorem follow_played (s : ScannerState) (v : String) (m : Bool) :
    (if m then mark_played s v else skip_video s v).played_videos
      = pySetAdd s.played_videos v := by
  cases m <;> simp [mark_played, skip_video]

/-- Videos already in PlayedSet never appear among the picks of a trace that
stays clear of the exhaustion reset. -/
theorem played_stay_out :
    ∀ (as : List (Nat × Bool)) (s : ScannerState), noExhaust s as = true →
      ∀ v ∈ s.played_videos, v ∉ (runTrace s as).1 := by
  intro as
  induction as with
  | nil => intro s _ v _; simp [runTrace]
  | cons a rest ih =>
    intro s hne v hv
    rw [noExhaust, Bool.and_eq_true] at hne
    obtain ⟨hfirst, hrest⟩ := hne
    rcases Bool.or_eq_true _ _ |>.mp hfirst with hvf | hup
    · have hvf' : s.video_files = [] := of_decide_eq_true hvf
      rw [runStep_empty s a hvf'] at hrest
      rw [runTrace, runStep_empty s a hvf']
      exact ih s hrest v hv
    · have hup' : unplayedOf s ≠ [] := by
        intro hc
        simp [hc] at hup
      obtain ⟨w, hwvf, hwp, hstep⟩ := runStep_active s a hup'
      rw [hstep] at hrest
      rw [runTrace, hstep]
      simp only [List.cons, List.mem_cons, not_or]
      constructor
      · intro hvw
        exact hwp (hvw ▸ hv)
      · apply ih _ hrest
        rw [follow_played]
        exact mem_pySetAdd.mpr (Or.inr hv)

/-- C3: along every pick/mark/skip trace that never hits the exhaustion
reset, the returned videos are pairwise distinct; and a single pick taken
while the unplayed pool is non-empty never returns a member of PlayedSet. -/
theorem no_repeat (s : ScannerState) (as : List (Nat × Bool))
    (h : noExhaust s as = true) :
    (runTrace s as).1.Nodup
    ∧ ∀ (k : Nat) (b : Bool) (v : String), unplayedOf s ≠ [] →
        (get_random_video s k b).1 = some v → v ∉ s.played_videos := by
  constructor
  · induction as generalizing s with
    | nil => simp [runTrace]
    | cons a rest ih =>
      rw [noExhaust, Bool.and_eq_true] at h
      obtain ⟨hfirst, hrest⟩ := h
      rcases Bool.or_eq_true _ _ |>.mp hfirst with hvf | hup
      · have hvf' : s.video_files = [] := of_decide_eq_true hvf
        rw [runTrace, runStep_empty s a hvf']
        rw [runStep_empty s a hvf'] at hrest
        exact ih _ hrest
      · have hup' : unplayedOf s ≠ [] := by
          intro hc
          simp [hc] at hup
        obtain ⟨w, hwvf, hwp, hstep⟩ := runStep_active s a hup'
        rw [hstep] at hrest
        rw [runTrace, hstep]
        simp only [List.cons]
        refine List.nodup_cons.mpr ⟨?_, ih _ hrest⟩
        apply played_stay_out rest _ hrest
        rw [follow_played]
        exact mem_pySetAdd.mpr (Or.inl rfl)
  · intro k b v hup hpick
    rw [grv_active s k b hup] at hpick
    exact (mem_unplayedOf.mp (pyChoice_mem hpick)).2

/-- A fresh two-video state used to witness the trace theorems. -/
def stateTrace : ScannerState :=
  { video_files := ["a", "b"], played_videos := [], recent_videos := [],
    max_recent := 10, current_folder := none }

/-- Witness for C3: a concrete two-round trace with distinct picks. -/
theorem no_repeat_witness :
    (runTrace stateTrace [(0, true), (0, false)]).1.Nodup :=
  (no_repeat stateTrace [(0, true), (0, false)] (by decide)).1

/-! ### Claim C7: recency bound, de-duplication, most-recent-first -/

theorem mark_recent_shape (s : ScannerState) (v : String) :
    (mark_played s v).recent_videos
      = (v :: s.recent_videos.erase v).take s.max_recent := by
  simp only [mark_played]
  by_cases hm : v ∈ s.recent_videos
  · simp only [if_pos hm]
    by_cases hl : (v :: s.recent_videos.erase v).length > s.max_recent
    · simp [hl]
    · rw [if_neg hl, List.take_of_length_le (Nat.le_of_not_lt hl)]
  · simp only [if_neg hm, List.erase_of_not_mem hm]
    by_cases hl : (v :: s.recent_videos).length > s.max_recent
    · simp [hl]
    · rw [if_neg hl, List.take_of_length_le (Nat.le_of_not_lt hl)]

theorem mark_recent_nodup {s : ScannerState} (v : String)
    (h : s.recent_videos.Nodup) : (mark_played s v).recent_videos.Nodup := by
  rw [mark_recent_shape]
  apply List.Sublist.nodup (List.take_sublist _ _)
  refine List.nodup_cons.mpr ⟨?_, h.erase v⟩
  intro hc
  exact ((h.mem_erase_iff.mp hc).1) rfl

theorem mark_max_recent (s : ScannerState) (v : String) :
    (mark_played s v).max_recent = s.max_recent := rfl

theorem foldl_mark_invariant :
    ∀ (vs : List String) (s : ScannerState), s.recent_videos.Nodup →
      (vs.foldl mark_played s).recent_videos.Nodup
      ∧ (vs.foldl mark_played s).max_recent = s.max_recent
      ∧ (vs ≠ [] →
          (vs.foldl mark_played s).recent_videos.length ≤ s.max_recent) := by
  intro vs
  induction vs with
  | nil => exact fun s h => ⟨h, rfl, fun hc => absurd rfl hc⟩
  | cons v rest ih =>
    intro s h
    rw [List.foldl_cons]
    obtain ⟨ih1, ih2, ih3⟩ := ih (mark_played s v) (mark_recent_nodup v h)
    refine ⟨ih1, ih2.trans (mark_max_recent s v), fun _ => ?_⟩
    rcases List.eq_nil_or_concat rest with hrest | _
    · subst hrest
      simp only [List.foldl_nil, mark_recent_shape]
      exact (List.length_take_le _ _)
    · rename_i hrest
      obtain ⟨l, b, rfl⟩ := hrest
      have hlen := ih3 (by simp)
      rw [mark_max_recent s v] at hlen
      exact hlen

/-- C7: starting from a recency list that is duplicate-free (as any reachable
state is), every sequence of `mark_played` calls keeps RecencyList
duplicate-free and, as soon as one video has been played, within the
`max_recent` bound (10 in the constructed scanner); and each single call
removes the video if present, reinserts it at the front and truncates to the
first `max_recent` entries. -/
theorem recency_invariant (s : ScannerState) (vs : List String)
    (h1 : s.recent_videos.Nodup) (h2 : s.recent_videos.length ≤ s.max_recent) :
    ((vs.foldl mark_played s).recent_videos.Nodup
     ∧ (vs.foldl mark_played s).recent_videos.length ≤ s.max_recent)
    ∧ (∀ (t : ScannerState) (v : String),
        (mark_played t v).recent_videos
          = (v :: t.recent_videos.erase v).take t.max_recent)
    ∧ initState.max_recent = 10 := by
  obtain ⟨ha, hb, hc⟩ := foldl_mark_invariant vs s h1
  refine ⟨⟨ha, ?_⟩, fun t v => mark_recent_shape t v, rfl⟩
  rcases List.eq_nil_or_concat vs with hvs | hvs
  · subst hvs
    exact h2
  · obtain ⟨l, b, rfl⟩ := hvs
    exact hc (by simp)

/-- Witness for C7: three plays (one repeated) from the fresh state. -/
theorem recency_invariant_witness :
    (((["a", "b", "a"].foldl mark_played initState).recent_videos.Nodup
     ∧ (["a", "b", "a"].foldl mark_played initState).recent_videos.length
         ≤ initState.max_recent)
    ∧ (∀ (t : ScannerState) (v : String),
        (mark_played t v).recent_videos
          = (v :: t.recent_videos.erase v).take t.max_recent)
    ∧ initState.max_recent = 10) :=
  recency_invariant initState ["a", "b", "a"] (by decide) (by decide)

/-! ### Claim C8: skip and the recency list / played count -/

/-- C8 counterexample: skipping a video that was played earlier in the session
leaves it inside `recent()` and does not increase the played count, refuting
the universal quantification of the claim over session states. -/
theorem skip_claim_false :
    ¬ (("a" ∉ get_recent_videos (skip_video stateEx "a") none)
       ∧ (get_progress (skip_video stateEx "a")).1
           = (get_progress stateEx).1 + 1) := by decide

/-- C8 amended: `skip_video` never touches RecencyList — so a skipped video is
absent from `recent()` if and only if it was absent before — and increases the
played count by exactly one when the video was not yet in PlayedSet, leaving
the state unchanged when it already was. -/
theorem skip_amended (s : ScannerState) (v : String) :
    (skip_video s v).recent_videos = s.recent_videos
    ∧ get_recent_videos (skip_video s v) none = s.recent_videos
    ∧ (v ∉ s.recent_videos → v ∉ get_recent_videos (skip_video s v) none)
    ∧ (v ∉ s.played_videos →
        (get_progress (skip_video s v)).1 = (get_progress s).1 + 1)
    ∧ (v ∈ s.played_videos → skip_video s v = s) := by
  refine ⟨rfl, rfl, fun h => h, fun h => ?_, fun h => ?_⟩
  · simp [get_progress, skip_video, pySetAdd, h]
  · simp [skip_video, pySetAdd, h]

/-- Witness for the amended C8: skipping a fresh video bumps the count. -/
theorem skip_amended_witness :
    (get_progress (skip_video initState "a")).1 = (get_progress initState).1 + 1 :=
  (skip_amended initState "a").2.2.2.1 (by decide)

/-! ### Claim C6: scan on missing / non-directory / unreadable folders -/

/-- A filesystem holding one existing entry `/folder` that is not a directory:
`rglob` on it yields nothing and raises nothing. -/
def fsNotDir : FileSystem :=
  { exists_ := fun f => f == "/folder", is_dir := fun _ => false,
    readable := fun _ => true, rglobAll := fun _ => [], is_file := fun _ => false }

/-- C6 counterexample: scanning an existing path that is not a directory does
not fail — `scan_folder` only checks existence, so the call succeeds with a
count of 0 instead of raising a discriminated invalid-folder error. -/
theorem scan_claim_false :
    fsNotDir.exists_ "/folder" = true
    ∧ fsNotDir.is_dir "/folder" = false
    ∧ scan_folder fsNotDir initState (some "/folder") false
        = .ok (0, { initState with current_folder := some "/folder" }) :=
  ⟨rfl, rfl, rfl⟩

/-- C6 amended: `scan_folder` raises the single undiscriminated error
`ValueError("Invalid folder path")` exactly when the folder argument is `None`
or does not exist; whenever the folder exists — directory or not, readable or
not — the call succeeds with whatever the recursive walk yields (nothing for a
non-directory or unreadable folder). -/
theorem scan_error_amended (fs : FileSystem) (s : ScannerState) (f : String)
    (persistent : Bool) :
    scan_folder fs s none persistent = .error "Invalid folder path"
    ∧ (fs.exists_ f = false →
        scan_folder fs s (some f) persistent = .error "Invalid folder path")
    ∧ (fs.exists_ f = true →
        scan_folder fs s (some f) persistent
          = .ok (((fs.rglobAll f).filter
                    (fun p => fs.is_file p && hasVideoExt p)).length,
                 { s with current_folder := some f,
                          played_videos :=
                            if persistent then s.played_videos else [],
                          recent_videos :=
                            if persistent then s.recent_videos else [],
                          video_files := (fs.rglobAll f).filter
                            (fun p => fs.is_file p && hasVideoExt p) })) := by
  refine ⟨rfl, fun h => ?_, fun h => ?_⟩
  · simp [scan_folder, h]
  · cases persistent <;> simp [scan_folder, h]

/-- Witness for the amended C6: a missing folder makes the scan fail. -/
theorem scan_error_amended_witness :
    scan_folder fsNotDir initState (some "/missing") false
      = .error "Invalid folder path" :=
  (scan_error_amended fsNotDir initState "/missing" false).2.1 (by decide)

/-! ### Claim C1: path-traversal rejection during load -/

/-- The combined acceptance test `_validate_path` applies to an entry under a
base folder: no `..` substring and resolved containment in the base. -/
def validOK (resolve : String → List String) (cf e : String) : Bool :=
  !containsDotDot e && (resolve cf).isPrefixOf (resolve e)

theorem validate_path_base (resolve : String → List String) (cf e : String) :
    validate_path resolve e (some cf)
      = if validOK resolve cf e then some e else none := by
  simp only [validate_path, validOK]
  by_cases h1 : containsDotDot e
  · simp [h1]
  · by_cases h2 : (resolve cf).isPrefixOf (resolve e) <;> simp [h1, h2]

theorem validateEntries_strings (resolve : String → List String) (cf : String) :
    ∀ l : List String, validateEntries resolve cf (l.map Json.jstr)
      = .ok (l.filter (validOK resolve cf)) := by
  intro l
  induction l with
  | nil => rfl
  | cons e rest ih =>
    simp only [List.map_cons, validateEntries, validate_json_path,
               validate_path_base]
    by_cases h : validOK resolve cf e
    · simp [h, ih]
    · simp [h, ih]

/-- C1: loading a snapshot whose four fields are well-formed string data:
if `current_folder` contains `..`, `load_state` returns `False` and leaves the
state unchanged; otherwise it returns `True` with each collection reduced to
its validated entries, and every `played_videos` entry that contains `..` or
whose resolution escapes the resolved folder is absent from the loaded
PlayedSet. -/
theorem traversal_guard (resolve : String → List String) (s : ScannerState)
    (fields : List (String × Json)) (cf : String) (pvs rvs vfs : List String)
    (hcf : jsonGet fields "current_folder" = some (.jstr cf))
    (hpv : jsonGet fields "played_videos" = some (.jarr (pvs.map Json.jstr)))
    (hrv : jsonGet fields "recent_videos" = some (.jarr (rvs.map Json.jstr)))
    (hvf : jsonGet fields "video_files" = some (.jarr (vfs.map Json.jstr))) :
    (containsDotDot cf = true →
       load_state resolve s (.parsed (.jobj fields)) = .returned false s)
    ∧ (containsDotDot cf = false →
       load_state resolve s (.parsed (.jobj fields))
         = .returned true
             { s with current_folder := some cf,
                      played_videos :=
                        pySetOfList (pvs.filter (validOK resolve cf)),
                      recent_videos := rvs.filter (validOK resolve cf),
                      video_files := vfs.filter (validOK resolve cf) }
       ∧ ∀ e : String,
           (containsDotDot e = true
            ∨ (resolve cf).isPrefixOf (resolve e) = false) →
           e ∉ pySetOfList (pvs.filter (validOK resolve cf))) := by
  have hget1 : pyDictGet (Json.jobj fields) "current_folder" (.jstr "")
      = .ok (.jstr cf) := by simp [pyDictGet, hcf]
  have hget2 : pyDictGet (Json.jobj fields) "played_videos" (.jarr [])
      = .ok (.jarr (pvs.map Json.jstr)) := by simp [pyDictGet, hpv]
  have hget3 : pyDictGet (Json.jobj fields) "recent_videos" (.jarr [])
      = .ok (.jarr (rvs.map Json.jstr)) := by simp [pyDictGet, hrv]
  have hget4 : pyDictGet (Json.jobj fields) "video_files" (.jarr [])
      = .ok (.jarr (vfs.map Json.jstr)) := by simp [pyDictGet, hvf]
  constructor
  · intro hdot
    simp [load_state, hget1, validate_json_path, validate_path, hdot]
  · intro hdot
    constructor
    · simp [load_state, hget1, hget2, hget3, hget4, validate_json_path,
            validate_path, hdot, pyIterate, validateEntries_strings]
    · intro e he hc
      have hfil := (List.mem_filter.mp (mem_pySetOfList.mp hc)).2
      rcases he with h1 | h1
      · simp [validOK, h1] at hfil
      · simp [validOK, h1] at hfil

/-- Concrete resolver for the witness: resolution of the three paths the
witness snapshot mentions. -/
def resolveW : String → List String := fun p =>
  if p = "/base" then ["base"]
  else if p = "/base/a.mp4" then ["base", "a.mp4"]
  else ["etc", "passwd"]

def pvsW : List String := ["../../etc/passwd", "/base/a.mp4"]

def rvsW : List String := ["/base/a.mp4"]

def vfsW : List String := ["/base/a.mp4"]

/-- The parsed snapshot of the witness: a traversal attempt sits inside
`played_videos`. -/
def fieldsW : List (String × Json) :=
  [("current_folder", Json.jstr "/base"),
   ("played_videos", Json.jarr (pvsW.map Json.jstr)),
   ("recent_videos", Json.jarr (rvsW.map Json.jstr)),
   ("video_files", Json.jarr (vfsW.map Json.jstr))]

/-- The state the witness snapshot loads to. -/
def stateLoadedW : ScannerState :=
  { initState with
    current_folder := some "/base",
    played_videos := pySetOfList (pvsW.filter (validOK resolveW "/base")),
    recent_videos := rvsW.filter (validOK resolveW "/base"),
    video_files := vfsW.filter (validOK resolveW "/base") }

/-- Witness for C1: the concrete snapshot loads successfully while the
`../../etc/passwd` entry is dropped from PlayedSet. -/
theorem traversal_guard_witness :
    load_state resolveW initState (.parsed (.jobj fieldsW))
      = .returned true stateLoadedW
    ∧ "../../etc/passwd" ∉ stateLoadedW.played_videos := by
  have h := (traversal_guard resolveW initState fieldsW "/base" pvsW rvsW vfsW
      rfl rfl rfl rfl).2 rfl
  exact ⟨h.1, h.2 "../../etc/passwd" (Or.inl rfl)⟩

/-! ### Claim C5: load never raises, or fails cleanly -/

/-- C5: evaluation at the failing input. A snapshot file whose JSON content is
the array `[]` parses, but `state.get` on a non-dict raises `AttributeError`,
which the `except` clause of `load_state` does not catch — `load_state`
raises instead of returning a boolean. -/
theorem load_raises_on_nondict :
    load_state (fun _ => []) initState (.parsed (.jarr []))
      = .raised "AttributeError" := rfl

end RandomVideoPicker
